import Mathlib

set_option maxHeartbeats 1000000

/-!
Verification development for the PR-Backend control-plane server
(src/server.js and the unnamed variant src/unnamed/part_000).

The server keeps three pieces of in-memory state: a `devices` Map
(deviceId -> device record incl. the live WebSocket handle), a
`sessions` Map (sessionId -> session record), and a bounded `logs`
buffer (part_000 only).  JavaScript `Map` objects are embedded as
ordered association lists whose `get` returns the first matching key
and whose `set` replaces every entry carrying the key (in program
states keys are unique, so this coincides with JS semantics).
-/

namespace PRBackend

/-! Embedding of the JavaScript Map operations used by the server. -/

def jsMapGet {α : Type} : List (String × α) → String → Option α
  | [], _ => none
  | p :: m, k => if p.1 = k then some p.2 else jsMapGet m k

def jsMapHas {α : Type} (m : List (String × α)) (k : String) : Bool :=
  (jsMapGet m k).isSome

def replaceKey {α : Type} : List (String × α) → String → α → List (String × α)
  | [], _, _ => []
  | p :: m, k, v => if p.1 = k then (k, v) :: replaceKey m k v else p :: replaceKey m k v

def jsMapSet {α : Type} (m : List (String × α)) (k : String) (v : α) : List (String × α) :=
  if jsMapHas m k then replaceKey m k v else m ++ [(k, v)]

def jsMapDelete {α : Type} : List (String × α) → String → List (String × α)
  | [], _ => []
  | p :: m, k => if p.1 = k then jsMapDelete m k else p :: jsMapDelete m k

/-- Number of entries of the association list carrying key `k`. -/
def countKey {α : Type} : List (String × α) → String → Nat
  | [], _ => 0
  | p :: m, k => (if p.1 = k then 1 else 0) + countKey m k

@[simp]
theorem jsMapGet_nil {α : Type} (k : String) : jsMapGet ([] : List (String × α)) k = none := rfl

@[simp]
theorem jsMapGet_cons {α : Type} (p : String × α) (m : List (String × α)) (k : String) :
    jsMapGet (p :: m) k = if p.1 = k then some p.2 else jsMapGet m k := rfl

@[simp]
theorem jsMapGet_append {α : Type} (m l : List (String × α)) (k : String) :
    jsMapGet (m ++ l) k = (jsMapGet m k).orElse (fun _ => jsMapGet l k) := by
  induction m with
  | nil => simp
  | cons p m ih =>
      by_cases h : p.1 = k <;> simp [h, ih]

theorem jsMapGet_replaceKey_self {α : Type} (m : List (String × α)) (k : String) (v : α) :
    jsMapGet (replaceKey m k v) k = if jsMapHas m k then some v else none := by
  induction m with
  | nil => simp [replaceKey, jsMapHas]
  | cons p m ih =>
      by_cases h : p.1 = k
      · simp [replaceKey, h, jsMapHas]
      · simp [replaceKey, h, jsMapHas] at ih ⊢
        exact ih

theorem jsMapGet_replaceKey_ne {α : Type} (m : List (String × α)) (k k' : String) (v : α)
    (h : k' ≠ k) : jsMapGet (replaceKey m k v) k' = jsMapGet m k' := by
  induction m with
  | nil => simp [replaceKey]
  | cons p m ih =>
      by_cases hp : p.1 = k
      · subst hp
        simp [replaceKey, Ne.symm h, ih]
      · simp only [replaceKey, if_neg hp]
        by_cases hq : p.1 = k' <;> simp [hq, ih]

theorem replaceKey_of_not_has {α : Type} (m : List (String × α)) (k : String) (v : α)
    (h : jsMapHas m k = false) : replaceKey m k v = m := by
  induction m with
  | nil => rfl
  | cons p m ih =>
      by_cases hp : p.1 = k
      · simp [jsMapHas, hp] at h
      · simp [jsMapHas, hp] at h
        simp only [replaceKey, if_neg hp]
        rw [ih (by simp [jsMapHas, h])]

@[simp]
theorem jsMapGet_set_self {α : Type} (m : List (String × α)) (k : String) (v : α) :
    jsMapGet (jsMapSet m k v) k = some v := by
  unfold jsMapSet
  by_cases h : jsMapHas m k
  · simp [h, jsMapGet_replaceKey_self]
  · simp at h
    simp [h, jsMapGet_replaceKey_self]
    unfold jsMapHas at h
    cases hg : jsMapGet m k with
    | none => simp [hg]
    | some w => simp [hg] at h

theorem jsMapGet_set_ne {α : Type} (m : List (String × α)) (k k' : String) (v : α)
    (h : k' ≠ k) : jsMapGet (jsMapSet m k v) k' = jsMapGet m k' := by
  unfold jsMapSet
  by_cases hh : jsMapHas m k
  · simp [hh, jsMapGet_replaceKey_ne m k k' v h]
  · simp [hh]
    cases hg : jsMapGet m k' with
    | none => simp [hg, Ne.symm h]
    | some w => simp [hg]

@[simp]
theorem jsMapHas_set_self {α : Type} (m : List (String × α)) (k : String) (v : α) :
    jsMapHas (jsMapSet m k v) k = true := by
  simp [jsMapHas]

theorem jsMapHas_set_preserve {α : Type} (m : List (String × α)) (k k' : String) (v : α)
    (h : jsMapHas m k' = true) : jsMapHas (jsMapSet m k v) k' = true := by
  by_cases he : k' = k
  · subst he; simp
  · unfold jsMapHas at h ⊢
    rw [jsMapGet_set_ne m k k' v he]
    exact h

theorem replaceKey_replaceKey {α : Type} (m : List (String × α)) (k : String) (v w : α) :
    replaceKey (replaceKey m k v) k w = replaceKey m k w := by
  induction m with
  | nil => rfl
  | cons p m ih =>
      by_cases hp : p.1 = k <;> simp [replaceKey, hp, ih]

theorem replaceKey_append {α : Type} (m l : List (String × α)) (k : String) (v : α) :
    replaceKey (m ++ l) k v = replaceKey m k v ++ replaceKey l k v := by
  induction m with
  | nil => rfl
  | cons p m ih =>
      by_cases hp : p.1 = k <;> simp [replaceKey, hp, ih]

theorem jsMapSet_set_same {α : Type} (m : List (String × α)) (k : String) (v w : α) :
    jsMapSet (jsMapSet m k v) k w = jsMapSet m k w := by
  by_cases h : jsMapHas m k = true
  · have e1 : jsMapSet m k v = replaceKey m k v := by
      unfold jsMapSet
      rw [if_pos h]
    have e2 : jsMapSet m k w = replaceKey m k w := by
      unfold jsMapSet
      rw [if_pos h]
    have h2 : jsMapHas (replaceKey m k v) k = true := by
      unfold jsMapHas
      rw [jsMapGet_replaceKey_self]
      simp [h]
    rw [e1]
    unfold jsMapSet
    rw [if_pos h2, replaceKey_replaceKey, if_pos h]
  · have hf : jsMapHas m k = false := by
      cases hb : jsMapHas m k
      · rfl
      · exact absurd hb h
    have hg : jsMapGet m k = none := by
      unfold jsMapHas at hf
      cases hgg : jsMapGet m k with
      | none => rfl
      | some u => rw [hgg] at hf; simp at hf
    have e1 : jsMapSet m k v = m ++ [(k, v)] := by
      unfold jsMapSet
      rw [if_neg (by simp [hf])]
    have e2 : jsMapSet m k w = m ++ [(k, w)] := by
      unfold jsMapSet
      rw [if_neg (by simp [hf])]
    have h2 : jsMapHas (m ++ [(k, v)]) k = true := by
      unfold jsMapHas
      simp [hg]
    rw [e1]
    unfold jsMapSet
    rw [if_pos h2, if_neg (by simp [hf]), replaceKey_append, replaceKey_of_not_has m k w hf]
    simp [replaceKey]

theorem countKey_replaceKey {α : Type} (m : List (String × α)) (k : String) (v : α) :
    countKey (replaceKey m k v) k = countKey m k := by
  induction m with
  | nil => rfl
  | cons p m ih =>
      by_cases hp : p.1 = k <;> simp [replaceKey, countKey, hp, ih]

theorem countKey_append {α : Type} (m l : List (String × α)) (k : String) :
    countKey (m ++ l) k = countKey m k + countKey l k := by
  induction m with
  | nil => simp [countKey]
  | cons p m ih =>
      by_cases hp : p.1 = k
      · simp [countKey, hp, ih]
        omega
      · simp [countKey, hp, ih]

theorem countKey_zero_of_not_has {α : Type} (m : List (String × α)) (k : String)
    (h : jsMapHas m k = false) : countKey m k = 0 := by
  induction m with
  | nil => rfl
  | cons p m ih =>
      by_cases hp : p.1 = k
      · simp [jsMapHas, hp] at h
      · simp [jsMapHas, hp] at h
        simp [countKey, hp, ih (by simp [jsMapHas, h])]

theorem countKey_pos_of_has {α : Type} (m : List (String × α)) (k : String)
    (h : jsMapHas m k = true) : 1 ≤ countKey m k := by
  induction m with
  | nil => simp [jsMapHas] at h
  | cons p m ih =>
      by_cases hp : p.1 = k
      · simp [countKey, hp]
      · simp [jsMapHas, hp] at h
        have := ih (by simp [jsMapHas, h])
        simp [countKey, hp]
        omega

theorem countKey_set_of_le_one {α : Type} (m : List (String × α)) (k : String) (v : α)
    (h : countKey m k ≤ 1) : countKey (jsMapSet m k v) k = 1 := by
  unfold jsMapSet
  by_cases hh : jsMapHas m k
  · rw [if_pos hh, countKey_replaceKey]
    have := countKey_pos_of_has m k hh
    omega
  · simp at hh
    rw [if_neg (by simp [hh]), countKey_append]
    rw [countKey_zero_of_not_has m k hh]
    simp [countKey]

@[simp]
theorem jsMapGet_delete_self {α : Type} (m : List (String × α)) (k : String) :
    jsMapGet (jsMapDelete m k) k = none := by
  induction m with
  | nil => rfl
  | cons p m ih =>
      by_cases hp : p.1 = k <;> simp [jsMapDelete, hp, ih]

/-! Data model.  A device record mirrors the JS object stored in the
`devices` Map; JS `undefined` fields are `none`.  The live WebSocket is
a handle carrying an id and its readyState-is-OPEN flag. -/

structure WsHandle where
  id : Nat
  readyStateOpen : Bool
deriving DecidableEq

/-- The JS test `device.ws && device.ws.readyState === WebSocket.OPEN`. -/
def handleOpen : Option WsHandle → Bool
  | some h => h.readyStateOpen
  | none => false

structure Device where
  deviceId : String
  name : Option String
  firmwareVersion : Option String
  capabilities : Option (List String)
  publicIp : Option String
  lastSeen : Nat
  status : String
  samplingRate : Option Nat
  cameraResolution : Option String
  compressionEnabled : Option Bool
  otaEnabled : Option Bool
  ws : Option WsHandle
deriving DecidableEq

abbrev DeviceMap := List (String × Device)

/-- Payload of a WebSocket `register` message; `none` models an absent
(or JS `null`) field, which behaves identically under `||` and `??`. -/
structure RegisterMsg where
  deviceId : Option String
  name : Option String
  firmwareVersion : Option String
  capabilities : Option (List String)
  samplingRate : Option Nat
  cameraResolution : Option String
  compressionEnabled : Option Bool
  otaEnabled : Option Bool
deriving DecidableEq

/-- JS `a || b` on a string-valued field: the empty string is falsy. -/
def jsOrString : Option String → String → String
  | some s, d => if s = "" then d else s
  | none, d => d

/-- JS `a || b` on a number-valued field: `0` is falsy. -/
def jsOrNat : Option Nat → Nat → Nat
  | some 0, d => d
  | some n, _ => n
  | none, d => d

/-- JS `a || b` on an array-valued field: any array is truthy. -/
def jsOrList : Option (List String) → List String → List String
  | some l, _ => l
  | none, d => d

/-- Events pushed to the dashboard Broadcast Bus (payloads reduced to
the identifying fields; the claims only inspect which events fire). -/
inductive Event where
  | deviceRegistered (deviceId : String)
  | heartbeat (deviceId : String)
  | deviceDisconnected (deviceId : String)
deriving DecidableEq

structure RegAck where
  deviceId : String
  status : String
deriving DecidableEq

/-- The device record stored by the `register` handler of src/server.js
(lines 55-84): `devices.set(deviceId, { ...deviceInfo, ws })`. -/
def serverStoredDevice (msg : RegisterMsg) (did : String) (h : WsHandle)
    (ip : String) (now : Nat) : Device :=
  { deviceId := did
    name := some (jsOrString msg.name ("ESP32-" ++ did.take 8))
    firmwareVersion := some (jsOrString msg.firmwareVersion "1.0.0")
    capabilities := some (jsOrList msg.capabilities [])
    publicIp := some ip
    lastSeen := now
    status := "online"
    samplingRate := some (jsOrNat msg.samplingRate 1000)
    cameraResolution := msg.cameraResolution
    compressionEnabled := msg.compressionEnabled
    otaEnabled := msg.otaEnabled
    ws := some h }

/-- The device record stored by the `register` handler of
src/unnamed/part_000 (lines 72-103); it fills extra defaults:
`cameraResolution || '640x480'`, `compressionEnabled ?? true`,
`otaEnabled ?? false`. -/
def part000StoredDevice (msg : RegisterMsg) (did : String) (h : WsHandle)
    (ip : String) (now : Nat) : Device :=
  { deviceId := did
    name := some (jsOrString msg.name ("ESP32-" ++ did.take 8))
    firmwareVersion := some (jsOrString msg.firmwareVersion "1.0.0")
    capabilities := some (jsOrList msg.capabilities [])
    publicIp := some ip
    lastSeen := now
    status := "online"
    samplingRate := some (jsOrNat msg.samplingRate 1000)
    cameraResolution := some (jsOrString msg.cameraResolution "640x480")
    compressionEnabled := some (msg.compressionEnabled.getD true)
    otaEnabled := some (msg.otaEnabled.getD false)
    ws := some h }

/-- src/server.js register handler: `deviceId = data.deviceId || uuidv4()`
(`fresh` stands for the `uuidv4()` value), store the record, ack the
device, broadcast `device_registered`.  Returns the new map, the
connection-local `deviceId` variable, the ack and the broadcast. -/
def serverRegisterStep (m : DeviceMap) (msg : RegisterMsg) (h : WsHandle)
    (ip fresh : String) (now : Nat) : DeviceMap × String × RegAck × List Event :=
  let did := jsOrString msg.deviceId fresh
  (jsMapSet m did (serverStoredDevice msg did h ip now), did,
   { deviceId := did, status := "success" }, [Event.deviceRegistered did])

/-- src/unnamed/part_000 register handler, identical control flow with
the part_000 defaults. -/
def part000RegisterStep (m : DeviceMap) (msg : RegisterMsg) (h : WsHandle)
    (ip fresh : String) (now : Nat) : DeviceMap × String × RegAck × List Event :=
  let did := jsOrString msg.deviceId fresh
  (jsMapSet m did (part000StoredDevice msg did h ip now), did,
   { deviceId := did, status := "success" }, [Event.deviceRegistered did])

/-- One `register` delivery: the message plus the per-delivery context
(connection handle, remote address, the `uuidv4()` draw, the clock). -/
structure RegEvent where
  msg : RegisterMsg
  handle : WsHandle
  ip : String
  fresh : String
  now : Nat
deriving DecidableEq

def serverRegisterFold (m : DeviceMap) (evs : List RegEvent) : DeviceMap :=
  evs.foldl (fun acc e => (serverRegisterStep acc e.msg e.handle e.ip e.fresh e.now).1) m

def part000RegisterFold (m : DeviceMap) (evs : List RegEvent) : DeviceMap :=
  evs.foldl (fun acc e => (part000RegisterStep acc e.msg e.handle e.ip e.fresh e.now).1) m

/-- src/server.js heartbeat handler (lines 88-94):
`if (deviceId && devices.has(deviceId))` update `lastSeen` only; no
broadcast, no status write.  `did` is the connection-local variable. -/
def serverHeartbeat (m : DeviceMap) (did : Option String) (now : Nat) : DeviceMap :=
  match did with
  | none => m
  | some d =>
      match jsMapGet m d with
      | none => m
      | some dev => jsMapSet m d { dev with lastSeen := now }

/-- src/unnamed/part_000 heartbeat handler (lines 106-145): early return
when the connection never registered or the id is unknown; otherwise
update `lastSeen`, force `status = 'online'`, then read
`data.sensors.find(...)` — when `sensors` is absent this throws (caught
by the outer try) so the broadcast is skipped — else broadcast. -/
def part000Heartbeat (m : DeviceMap) (did : Option String)
    (sensors : Option (List String)) (now : Nat) : DeviceMap × List Event :=
  match did with
  | none => (m, [])
  | some d =>
      match jsMapGet m d with
      | none => (m, [])
      | some dev =>
          let m' := jsMapSet m d { dev with lastSeen := now, status := "online" }
          match sensors with
          | none => (m', [])
          | some _ => (m', [Event.heartbeat d])

/-- src/server.js close handler (lines 114-125): if the connection had
registered, DELETE the registry entry and broadcast the disconnect. -/
def serverClose (m : DeviceMap) (did : Option String) : DeviceMap × List Event :=
  match did with
  | none => (m, [])
  | some d => (jsMapDelete m d, [Event.deviceDisconnected d])

/-- src/unnamed/part_000 close handler (lines 164-178): if the entry
exists, set `status = 'offline'` (the `ws` field is left in place) and
broadcast the disconnect. -/
def part000Close (m : DeviceMap) (did : Option String) : DeviceMap × List Event :=
  match did with
  | none => (m, [])
  | some d =>
      match jsMapGet m d with
      | none => (m, [])
      | some dev => (jsMapSet m d { dev with status := "offline" }, [Event.deviceDisconnected d])

/-! Sessions, REST handlers and outbound device messages. -/

structure Session where
  sessionId : String
  name : Option String
  nodes : List String
  sensors : Option (List String)
  keySetId : Option String
  startTime : Nat
  duration : Option Nat
  retentionPolicy : Option String
  status : String
  sessionToken : String
  endTime : Option Nat
deriving DecidableEq

abbrev SessionMap := List (String × Session)

/-- The raw body of `PUT /api/devices/:deviceId/configure` in
src/unnamed/part_000, projected onto the device fields the claims
inspect; `Object.assign(device, config)` copies exactly the keys that
are present. -/
structure Part000Config where
  name : Option String
  samplingRate : Option Nat
  capabilities : Option (List String)
  cameraResolution : Option String
  compressionEnabled : Option Bool
  otaEnabled : Option Bool
deriving DecidableEq

/-- The body of `PUT /api/devices/:deviceId/configure` in src/server.js
(it reads `config.deviceName`, `config.samplingRate`, ...). -/
structure ServerConfig where
  deviceName : Option String
  samplingRate : Option Nat
  capabilities : Option (List String)
  cameraResolution : Option String
  compressionEnabled : Option Bool
  otaEnabled : Option Bool
deriving DecidableEq

/-- Messages written to a device connection handle. -/
inductive OutMsg where
  | sessionStart (sessionId sessionToken : String)
      (sensors : Option (List String)) (duration : Option Nat)
  | sessionStop (sessionId : String)
  | configUpdatePart000 (config : Part000Config)
  | configUpdateServer (name : Option String) (samplingRate : Option Nat)
      (capabilities : Option (List String)) (cameraResolution : Option String)
      (compressionEnabled : Option Bool) (otaEnabled : Option Bool)
  | actuatorCommand (commandId actuatorId : String) (value nonce : Nat)
deriving DecidableEq

/-- A node is reachable when the registry holds it and its handle is an
open socket (`devices.has(id)` plus `device.ws && readyState OPEN`). -/
def isOnline (m : DeviceMap) (nodeId : String) : Bool :=
  match jsMapGet m nodeId with
  | some dev => handleOpen dev.ws
  | none => false

/-- POST /api/sessions (src/server.js lines 260-296): store the new
session as `active`, send `session_start` to every listed node that is
registered with an open handle, skip the rest silently.  `sid` and
`tok` stand for the two `uuidv4()` draws. -/
def createSession (sessions : SessionMap) (devices : DeviceMap)
    (name : Option String) (nodes : List String) (sensors : Option (List String))
    (keySetId : Option String) (duration : Option Nat) (retention : Option String)
    (sid tok : String) (now : Nat) : SessionMap × Session × List (String × OutMsg) :=
  let s : Session :=
    { sessionId := sid, name := name, nodes := nodes, sensors := sensors
      keySetId := keySetId, startTime := now, duration := duration
      retentionPolicy := retention, status := "active", sessionToken := tok
      endTime := none }
  let sends := nodes.filterMap fun n =>
    if isOnline devices n then some (n, OutMsg.sessionStart sid tok sensors duration) else none
  (jsMapSet sessions sid s, s, sends)

/-- GET /api/sessions/:sessionId (src/server.js lines 299-307). -/
def getSession (sessions : SessionMap) (sid : String) : Except String Session :=
  match jsMapGet sessions sid with
  | none => Except.error "Session not found"
  | some s => Except.ok s

/-- POST /api/sessions/:sessionId/stop (src/server.js lines 326-352):
404 when unknown; otherwise set `status = 'stopped'`, re-stamp
`endTime` with the current time, and send `session_stop` to every
listed node that is online. -/
def stopSession (sessions : SessionMap) (devices : DeviceMap) (sid : String)
    (now : Nat) : Except String (SessionMap × Session × List (String × OutMsg)) :=
  match jsMapGet sessions sid with
  | none => Except.error "Session not found"
  | some s =>
      let s' := { s with status := "stopped", endTime := some now }
      let sends := s'.nodes.filterMap fun n =>
        if isOnline devices n then some (n, OutMsg.sessionStop sid) else none
      Except.ok (jsMapSet sessions sid s', s', sends)

/-- The device record produced by the src/server.js configure handler
(lines 212-217): `name`, `samplingRate` and `capabilities` use `||`
fallbacks, while `cameraResolution`, `compressionEnabled` and
`otaEnabled` are assigned unconditionally from the request body. -/
def serverConfiguredDevice (dev : Device) (cfg : ServerConfig) : Device :=
  { dev with
    name := match cfg.deviceName with
            | some s => if s = "" then dev.name else some s
            | none => dev.name
    samplingRate := match cfg.samplingRate with
                    | some 0 => dev.samplingRate
                    | some n => some n
                    | none => dev.samplingRate
    capabilities := match cfg.capabilities with
                    | some l => some l
                    | none => dev.capabilities
    cameraResolution := cfg.cameraResolution
    compressionEnabled := cfg.compressionEnabled
    otaEnabled := cfg.otaEnabled }

/-- PUT /api/devices/:deviceId/configure in src/server.js
(lines 201-241): 404 when the id is unknown; otherwise store the
updated record and push a `config_update` carrying the resulting
fields when the handle is open. -/
def serverConfigure (m : DeviceMap) (did : String) (cfg : ServerConfig) :
    Except String (DeviceMap × List (String × OutMsg)) :=
  match jsMapGet m did with
  | none => Except.error "Device not found"
  | some dev =>
      let dev' := serverConfiguredDevice dev cfg
      let sends := if handleOpen dev'.ws then
          [(did, OutMsg.configUpdateServer dev'.name dev'.samplingRate dev'.capabilities
              dev'.cameraResolution dev'.compressionEnabled dev'.otaEnabled)]
        else []
      Except.ok (jsMapSet m did dev', sends)

/-- `Object.assign(device, config)` in src/unnamed/part_000: only keys
present in the body overwrite the stored record. -/
def part000AssignConfig (dev : Device) (cfg : Part000Config) : Device :=
  { dev with
    name := match cfg.name with | some s => some s | none => dev.name
    samplingRate := match cfg.samplingRate with | some n => some n | none => dev.samplingRate
    capabilities := match cfg.capabilities with | some l => some l | none => dev.capabilities
    cameraResolution := match cfg.cameraResolution with | some s => some s | none => dev.cameraResolution
    compressionEnabled := match cfg.compressionEnabled with | some b => some b | none => dev.compressionEnabled
    otaEnabled := match cfg.otaEnabled with | some b => some b | none => dev.otaEnabled }

/-- PUT /api/devices/:deviceId/configure in src/unnamed/part_000
(lines 219-240): 404 when unknown; otherwise `Object.assign` the body
onto the record, store it, and push the raw body when the handle is
open. -/
def part000Configure (m : DeviceMap) (did : String) (cfg : Part000Config) :
    Except String (DeviceMap × List (String × OutMsg)) :=
  match jsMapGet m did with
  | none => Except.error "Device not found"
  | some dev =>
      let dev' := part000AssignConfig dev cfg
      let sends := if handleOpen dev'.ws then [(did, OutMsg.configUpdatePart000 cfg)] else []
      Except.ok (jsMapSet m did dev', sends)

/-- Outcome of POST /api/nodes/:nodeId/actuators/:actuatorId/command:
HTTP 404, HTTP 503, or 200 with the generated commandId. -/
inductive CmdOutcome where
  | notFound
  | offline
  | sent (commandId : String)
deriving DecidableEq

/-- src/server.js lines 408-440: 404 when the node is unknown, 503 when
it is known but its handle is not an open socket, otherwise forward a
structured `actuator_command` and answer `status: 'sent'`.  `cmdId`
stands for the `uuidv4()` draw. -/
def sendActuatorCommand (m : DeviceMap) (nodeId actuatorId : String)
    (value nonce : Nat) (cmdId : String) : CmdOutcome × List (String × OutMsg) :=
  match jsMapGet m nodeId with
  | none => (CmdOutcome.notFound, [])
  | some dev =>
      if handleOpen dev.ws then
        (CmdOutcome.sent cmdId, [(nodeId, OutMsg.actuatorCommand cmdId actuatorId value nonce)])
      else
        (CmdOutcome.offline, [])

/-- Body of `POST /api/devices/:deviceId/register` in src/server.js,
projected onto the modelled device fields. -/
structure RestBody where
  name : Option String
  status : Option String
deriving DecidableEq

/-- src/server.js lines 180-198: on an existing id,
`Object.assign(device, deviceData)`; on a missing id, create a record
from the body with `status: 'offline'` and a fresh `lastSeen`. -/
def serverRestRegister (m : DeviceMap) (did : String) (b : RestBody) (now : Nat) : DeviceMap :=
  match jsMapGet m did with
  | some dev =>
      jsMapSet m did
        { dev with
          name := match b.name with | some s => some s | none => dev.name
          status := match b.status with | some s => s | none => dev.status }
  | none =>
      jsMapSet m did
        { deviceId := did, name := b.name, firmwareVersion := none
          capabilities := none, publicIp := none, lastSeen := now
          status := "offline", samplingRate := none, cameraResolution := none
          compressionEnabled := none, otaEnabled := none, ws := none }

/-! The logs ring buffer of src/unnamed/part_000 (lines 297-309). -/

structure LogEntry where
  message : String
  time : Nat
deriving DecidableEq

/-- One call to `log(...)`: `logs.push(entry)` then
`if (logs.length > 500) logs.shift()`. -/
def logStep (logs : List LogEntry) (e : LogEntry) : List LogEntry :=
  let l := logs ++ [e]
  if 500 < l.length then l.tail else l

/-- GET /logs returns the buffer as-is. -/
def getLogs (logs : List LogEntry) : List LogEntry := logs

/-! Dashboard `binary_cmd` handling.

Modelled from the spec: no dashboard-to-hub message handler appears in
src/ (the `/ws/devices` connections only receive pushes there), so the
`binary_cmd \x7btarget, payloadHex\x7d` router row is embedded from the
spec's words: decode hex with odd-length input zero-padded and
malformed digits never rejected, forward the raw bytes when the target
resolves to an online device, else reply `error` with reason
"device not connected". -/

/-- Modelled from the spec: value of one hex digit; a malformed digit
contributes zero rather than an error. -/
def hexVal (c : Char) : Nat :=
  if '0' ≤ c ∧ c ≤ '9' then c.toNat - '0'.toNat
  else if 'a' ≤ c ∧ c ≤ 'f' then c.toNat - 'a'.toNat + 10
  else if 'A' ≤ c ∧ c ≤ 'F' then c.toNat - 'A'.toNat + 10
  else 0

/-- Modelled from the spec: odd-length hex input is zero-padded on the
right, so "0A1" is treated as "0A10". -/
def hexPad (s : String) : String :=
  if s.length % 2 = 1 then s ++ "0" else s

def hexBytesAux : List Char → List Nat
  | c1 :: c2 :: rest => (16 * hexVal c1 + hexVal c2) :: hexBytesAux rest
  | [c] => [16 * hexVal c]
  | [] => []

/-- Modelled from the spec: decode a payloadHex string into bytes. -/
def decodeHex (s : String) : List Nat :=
  hexBytesAux (hexPad s).data

/-- Reply sent back to the issuing dashboard, or the raw-byte forward. -/
inductive DashReply where
  | forwarded (target : String) (bytes : List Nat)
  | errorReply (reason : String)
deriving DecidableEq

/-- Modelled from the spec: the `binary_cmd` dashboard message. -/
def binaryCmd (devices : DeviceMap) (target payloadHex : String) : DashReply :=
  if isOnline devices target then
    DashReply.forwarded target (decodeHex payloadHex)
  else
    DashReply.errorReply "device not connected"

/-! Shared helper lemmas about the handlers. -/

theorem serverRegisterStep_map (m : DeviceMap) (e : RegEvent) (d : String)
    (hd : d ≠ "") (he : e.msg.deviceId = some d) :
    (serverRegisterStep m e.msg e.handle e.ip e.fresh e.now).1
      = jsMapSet m d (serverStoredDevice e.msg d e.handle e.ip e.now) := by
  simp [serverRegisterStep, he, jsOrString, hd]

theorem part000RegisterStep_map (m : DeviceMap) (e : RegEvent) (d : String)
    (hd : d ≠ "") (he : e.msg.deviceId = some d) :
    (part000RegisterStep m e.msg e.handle e.ip e.fresh e.now).1
      = jsMapSet m d (part000StoredDevice e.msg d e.handle e.ip e.now) := by
  simp [part000RegisterStep, he, jsOrString, hd]

theorem serverRegisterFold_countKey_le (d : String) (evs : List RegEvent)
    (hd : d ≠ "") (hall : ∀ e ∈ evs, e.msg.deviceId = some d) :
    ∀ m : DeviceMap, countKey m d ≤ 1 → countKey (serverRegisterFold m evs) d ≤ 1 := by
  induction evs with
  | nil => intro m hm; exact hm
  | cons e evs ih =>
      intro m hm
      have he : e.msg.deviceId = some d := hall e (by simp)
      show countKey (serverRegisterFold
        ((serverRegisterStep m e.msg e.handle e.ip e.fresh e.now).1) evs) d ≤ 1
      rw [serverRegisterStep_map m e d hd he]
      exact ih (fun x hx => hall x (by simp [hx])) _
        (le_of_eq (countKey_set_of_le_one m d _ hm))

theorem part000RegisterFold_countKey_le (d : String) (evs : List RegEvent)
    (hd : d ≠ "") (hall : ∀ e ∈ evs, e.msg.deviceId = some d) :
    ∀ m : DeviceMap, countKey m d ≤ 1 → countKey (part000RegisterFold m evs) d ≤ 1 := by
  induction evs with
  | nil => intro m hm; exact hm
  | cons e evs ih =>
      intro m hm
      have he : e.msg.deviceId = some d := hall e (by simp)
      show countKey (part000RegisterFold
        ((part000RegisterStep m e.msg e.handle e.ip e.fresh e.now).1) evs) d ≤ 1
      rw [part000RegisterStep_map m e d hd he]
      exact ih (fun x hx => hall x (by simp [hx])) _
        (le_of_eq (countKey_set_of_le_one m d _ hm))

theorem filterMap_ifOnline {β : Type} (devices : DeviceMap) (c : String → β) (l : List String) :
    (l.filterMap fun n => if isOnline devices n then some (c n) else none)
      = (l.filter fun n => isOnline devices n).map c := by
  induction l with
  | nil => rfl
  | cons a l ih =>
      by_cases h : isOnline devices a <;> simp [h, ih]

theorem logStep_length_le (logs : List LogEntry) (e : LogEntry)
    (h : logs.length ≤ 500) : (logStep logs e).length ≤ 500 := by
  unfold logStep
  by_cases hl : 500 < (logs ++ [e]).length
  · rw [if_pos hl]
    simp at hl ⊢
    omega
  · rw [if_neg hl]
    simp at hl ⊢
    omega

theorem logsFold_length_le (es : List LogEntry) :
    ∀ logs : List LogEntry, logs.length ≤ 500 → (es.foldl logStep logs).length ≤ 500 := by
  induction es with
  | nil => intro logs h; exact h
  | cons e es ih =>
      intro logs h
      exact ih (logStep logs e) (logStep_length_le logs e h)

/-! Claim theorems. -/

/-- Claim C1: for every sequence of `register` messages carrying the
same (nonempty) deviceId, over one or several device connections, both
variants' device maps afterwards contain exactly one entry for that
deviceId, holding the metadata and connection handle supplied by the
most recent `register`; no duplicate entry is created. -/
theorem register_upsert_single_entry
    (m : DeviceMap) (d : String) (evs : List RegEvent) (e : RegEvent)
    (hd : d ≠ "") (hm : countKey m d ≤ 1)
    (hall : ∀ x ∈ evs ++ [e], x.msg.deviceId = some d) :
    countKey (serverRegisterFold m (evs ++ [e])) d = 1 ∧
    jsMapGet (serverRegisterFold m (evs ++ [e])) d
      = some (serverStoredDevice e.msg d e.handle e.ip e.now) ∧
    countKey (part000RegisterFold m (evs ++ [e])) d = 1 ∧
    jsMapGet (part000RegisterFold m (evs ++ [e])) d
      = some (part000StoredDevice e.msg d e.handle e.ip e.now) := by
  have he : e.msg.deviceId = some d := hall e (by simp)
  have hevs : ∀ x ∈ evs, x.msg.deviceId = some d := fun x hx => hall x (by simp [hx])
  have hS : serverRegisterFold m (evs ++ [e])
      = (serverRegisterStep (serverRegisterFold m evs) e.msg e.handle e.ip e.fresh e.now).1 := by
    simp [serverRegisterFold, List.foldl_append]
  have hP : part000RegisterFold m (evs ++ [e])
      = (part000RegisterStep (part000RegisterFold m evs) e.msg e.handle e.ip e.fresh e.now).1 := by
    simp [part000RegisterFold, List.foldl_append]
  have hleS := serverRegisterFold_countKey_le d evs hd hevs m hm
  have hleP := part000RegisterFold_countKey_le d evs hd hevs m hm
  rw [hS, hP, serverRegisterStep_map _ e d hd he, part000RegisterStep_map _ e d hd he]
  exact ⟨countKey_set_of_le_one _ d _ hleS, jsMapGet_set_self _ d _,
    countKey_set_of_le_one _ d _ hleP, jsMapGet_set_self _ d _⟩

def c1ev1 : RegEvent :=
  { msg := { deviceId := some "d1", name := none, firmwareVersion := none
             capabilities := none, samplingRate := none, cameraResolution := none
             compressionEnabled := none, otaEnabled := none }
    handle := { id := 1, readyStateOpen := true }, ip := "10.0.0.1", fresh := "u1", now := 5 }

def c1ev2 : RegEvent :=
  { msg := { deviceId := some "d1", name := some "Node", firmwareVersion := some "2.0.0"
             capabilities := some ["camera"], samplingRate := some 250
             cameraResolution := some "800x600", compressionEnabled := some false
             otaEnabled := some true }
    handle := { id := 2, readyStateOpen := true }, ip := "10.0.0.2", fresh := "u2", now := 9 }

/-- Witness for C1: two registrations of "d1" on two connections leave
exactly one entry carrying the second registration's data. -/
theorem register_upsert_single_entry_witness :
    countKey (serverRegisterFold [] ([c1ev1] ++ [c1ev2])) "d1" = 1 ∧
    jsMapGet (serverRegisterFold [] ([c1ev1] ++ [c1ev2])) "d1"
      = some (serverStoredDevice c1ev2.msg "d1" c1ev2.handle c1ev2.ip c1ev2.now) ∧
    countKey (part000RegisterFold [] ([c1ev1] ++ [c1ev2])) "d1" = 1 ∧
    jsMapGet (part000RegisterFold [] ([c1ev1] ++ [c1ev2])) "d1"
      = some (part000StoredDevice c1ev2.msg "d1" c1ev2.handle c1ev2.ip c1ev2.now) :=
  register_upsert_single_entry [] "d1" [c1ev1] c1ev2 (by decide) (by decide) (by decide)

/-- Claim C9: in both registration handlers a `register` message whose
deviceId is absent (or JS null, likewise falsy) or the empty string is
assigned the freshly generated UUID, and the `registration_ack` carries
the deviceId actually stored in the registry. -/
theorem register_generated_deviceId
    (m : DeviceMap) (msg : RegisterMsg) (h : WsHandle) (ip fresh : String) (now : Nat) :
    (msg.deviceId = none →
      (serverRegisterStep m msg h ip fresh now).2.1 = fresh) ∧
    (msg.deviceId = some "" →
      (serverRegisterStep m msg h ip fresh now).2.1 = fresh) ∧
    (∀ s, msg.deviceId = some s → s ≠ "" →
      (serverRegisterStep m msg h ip fresh now).2.1 = s) ∧
    (serverRegisterStep m msg h ip fresh now).2.2.1.deviceId
      = (serverRegisterStep m msg h ip fresh now).2.1 ∧
    jsMapGet (serverRegisterStep m msg h ip fresh now).1
        ((serverRegisterStep m msg h ip fresh now).2.1)
      = some (serverStoredDevice msg ((serverRegisterStep m msg h ip fresh now).2.1) h ip now) ∧
    (msg.deviceId = none →
      (part000RegisterStep m msg h ip fresh now).2.1 = fresh) ∧
    (msg.deviceId = some "" →
      (part000RegisterStep m msg h ip fresh now).2.1 = fresh) ∧
    (∀ s, msg.deviceId = some s → s ≠ "" →
      (part000RegisterStep m msg h ip fresh now).2.1 = s) ∧
    (part000RegisterStep m msg h ip fresh now).2.2.1.deviceId
      = (part000RegisterStep m msg h ip fresh now).2.1 ∧
    jsMapGet (part000RegisterStep m msg h ip fresh now).1
        ((part000RegisterStep m msg h ip fresh now).2.1)
      = some (part000StoredDevice msg ((part000RegisterStep m msg h ip fresh now).2.1) h ip now) := by
  refine ⟨?_, ?_, ?_, rfl, ?_, ?_, ?_, ?_, rfl, ?_⟩
  · intro hid; simp [serverRegisterStep, hid, jsOrString]
  · intro hid; simp [serverRegisterStep, hid, jsOrString]
  · intro s hid hs; simp [serverRegisterStep, hid, jsOrString, hs]
  · exact jsMapGet_set_self _ _ _
  · intro hid; simp [part000RegisterStep, hid, jsOrString]
  · intro hid; simp [part000RegisterStep, hid, jsOrString]
  · intro s hid hs; simp [part000RegisterStep, hid, jsOrString, hs]
  · exact jsMapGet_set_self _ _ _

def c9msg : RegisterMsg :=
  { deviceId := some "", name := none, firmwareVersion := none, capabilities := none
    samplingRate := none, cameraResolution := none, compressionEnabled := none
    otaEnabled := none }

/-- Witness for C9: an empty-string deviceId is replaced by the fresh
UUID "u9" in the stored key and in the ack. -/
theorem register_generated_deviceId_witness :
    (serverRegisterStep [] c9msg ⟨7, true⟩ "ip" "u9" 3).2.1 = "u9" ∧
    (serverRegisterStep [] c9msg ⟨7, true⟩ "ip" "u9" 3).2.2.1.deviceId
      = (serverRegisterStep [] c9msg ⟨7, true⟩ "ip" "u9" 3).2.1 :=
  have t := register_generated_deviceId [] c9msg ⟨7, true⟩ "ip" "u9" 3
  ⟨t.2.1 rfl, t.2.2.2.1⟩

/-- Claim C10: the logs buffer of src/unnamed/part_000 never exceeds
500 entries; each `log` call appends exactly one entry and, when the
length would exceed 500, drops the oldest; any run starting from the
empty buffer keeps GET /logs at 500 entries or fewer. -/
theorem logs_bounded (logs : List LogEntry) (e : LogEntry) (h : logs.length ≤ 500) :
    (logStep logs e).length ≤ 500 ∧
    (500 < (logs ++ [e]).length → logStep logs e = (logs ++ [e]).tail) ∧
    ((logs ++ [e]).length ≤ 500 → logStep logs e = logs ++ [e]) ∧
    (∀ es : List LogEntry, (getLogs (es.foldl logStep [])).length ≤ 500) := by
  refine ⟨logStep_length_le logs e h, ?_, ?_, ?_⟩
  · intro hl; unfold logStep; rw [if_pos hl]
  · intro hl; unfold logStep; rw [if_neg (by omega)]
  · intro es; exact logsFold_length_le es [] (by simp)

def c2msg : RegisterMsg :=
  { deviceId := some "d1", name := none, firmwareVersion := none, capabilities := none
    samplingRate := none, cameraResolution := none, compressionEnabled := none
    otaEnabled := none }

def c2map : DeviceMap := (serverRegisterStep [] c2msg ⟨3, true⟩ "ip" "u2" 0).1

def c2mapP : DeviceMap := (part000RegisterStep [] c2msg ⟨3, true⟩ "ip" "u2" 0).1

/-- Counterexample to C2 as stated: in src/server.js the close handler
deletes the registry entry outright, so after the close the device is
gone from the map (`list()` cannot report it offline); and in
src/unnamed/part_000 the entry survives but the connection handle is
NOT cleared — `ws` still holds the closed socket. -/
theorem device_close_counterexample :
    jsMapGet (serverClose c2map (some "d1")).1 "d1" = none ∧
    (jsMapGet (part000Close c2mapP (some "d1")).1 "d1").map Device.ws
      = some (some ⟨3, true⟩) ∧
    (jsMapGet (part000Close c2mapP (some "d1")).1 "d1").map Device.ws ≠ some none := by
  decide

/-- Claim C2 amended: after a device connection closes, the part_000
variant retains the entry with `status = 'offline'` and its last
metadata (so `list()` reports it offline), but the handle field is left
in place rather than cleared; marking offline is idempotent.  The
server.js variant instead deletes the entry outright. -/
theorem device_close_marks_offline (m : DeviceMap) (d : String) :
    (jsMapGet m d = none → part000Close m (some d) = (m, [])) ∧
    (∀ dev, jsMapGet m d = some dev →
      jsMapGet (part000Close m (some d)).1 d = some { dev with status := "offline" } ∧
      (jsMapGet (part000Close m (some d)).1 d).map Device.ws = some dev.ws ∧
      (part000Close (part000Close m (some d)).1 (some d)).1 = (part000Close m (some d)).1) ∧
    jsMapGet (serverClose m (some d)).1 d = none := by
  refine ⟨?_, ?_, ?_⟩
  · intro h
    simp [part000Close, h]
  · intro dev h
    have e1 : part000Close m (some d)
        = (jsMapSet m d { dev with status := "offline" }, [Event.deviceDisconnected d]) := by
      simp [part000Close, h]
    have h2 : jsMapGet (jsMapSet m d { dev with status := "offline" }) d
        = some { dev with status := "offline" } := jsMapGet_set_self _ _ _
    refine ⟨?_, ?_, ?_⟩
    · rw [e1]
      exact jsMapGet_set_self _ _ _
    · rw [e1]
      simp [jsMapGet_set_self]
    · rw [e1]
      simp only [part000Close, h2]
      rw [jsMapSet_set_same]
  · simp [serverClose]

def c2wmsg : RegisterMsg :=
  { deviceId := some "d2", name := none, firmwareVersion := none, capabilities := none
    samplingRate := none, cameraResolution := none, compressionEnabled := none
    otaEnabled := none }

def c2wmap : DeviceMap := (part000RegisterStep [] c2wmsg ⟨4, true⟩ "ip" "uw" 0).1

def c2wdev : Device := part000StoredDevice c2wmsg "d2" ⟨4, true⟩ "ip" 0

/-- Witness for the amended C2 on a registered part_000 device. -/
theorem device_close_marks_offline_witness :
    jsMapGet (part000Close c2wmap (some "d2")).1 "d2"
      = some { c2wdev with status := "offline" } ∧
    (part000Close (part000Close c2wmap (some "d2")).1 (some "d2")).1
      = (part000Close c2wmap (some "d2")).1 ∧
    jsMapGet (serverClose c2wmap (some "d2")).1 "d2" = none :=
  have t := device_close_marks_offline c2wmap "d2"
  have h : jsMapGet c2wmap "d2" = some c2wdev := by decide
  ⟨(t.2.1 c2wdev h).1, (t.2.1 c2wdev h).2.2, t.2.2⟩

def c3msg : RegisterMsg :=
  { deviceId := some "d3", name := none, firmwareVersion := none, capabilities := none
    samplingRate := none, cameraResolution := none, compressionEnabled := none
    otaEnabled := none }

def c3m2 : DeviceMap :=
  serverRestRegister ((serverRegisterStep [] c3msg ⟨5, true⟩ "ip" "u3" 0).1) "d3"
    { name := none, status := some "offline" } 1

def c3m3 : DeviceMap := serverHeartbeat c3m2 (some "d3") 2

/-- Counterexample to C3 as stated: in src/server.js a heartbeat from a
registered connection whose entry was meanwhile set to
`status: 'offline'` (via POST /api/devices/d3/register) updates
`lastSeen` but does NOT force the status back to online. -/
theorem heartbeat_status_counterexample :
    (jsMapGet c3m3 "d3").map Device.status ≠ some "online" ∧
    (jsMapGet c3m3 "d3").map Device.lastSeen = some 2 := by
  decide

/-- Claim C3 amended: a heartbeat is a no-op (no state change, no
broadcast) when the connection never registered or the deviceId is
unknown, in both variants; otherwise part_000 updates `lastSeen` and
forces `status = 'online'`, while server.js only updates `lastSeen`,
leaving the stored status untouched. -/
theorem heartbeat_touch (m : DeviceMap) (now : Nat) (sensors : Option (List String)) :
    (part000Heartbeat m none sensors now = (m, [])) ∧
    (∀ d, jsMapGet m d = none → part000Heartbeat m (some d) sensors now = (m, [])) ∧
    (∀ d dev, jsMapGet m d = some dev →
      jsMapGet (part000Heartbeat m (some d) sensors now).1 d
        = some { dev with lastSeen := now, status := "online" }) ∧
    (serverHeartbeat m none now = m) ∧
    (∀ d, jsMapGet m d = none → serverHeartbeat m (some d) now = m) ∧
    (∀ d dev, jsMapGet m d = some dev →
      jsMapGet (serverHeartbeat m (some d) now) d = some { dev with lastSeen := now }) := by
  refine ⟨rfl, ?_, ?_, rfl, ?_, ?_⟩
  · intro d h
    simp [part000Heartbeat, h]
  · intro d dev h
    cases sensors <;> simp [part000Heartbeat, h]
  · intro d h
    simp [serverHeartbeat, h]
  · intro d dev h
    simp [serverHeartbeat, h]

def c3wmsg : RegisterMsg :=
  { deviceId := some "d3", name := none, firmwareVersion := none, capabilities := none
    samplingRate := none, cameraResolution := none, compressionEnabled := none
    otaEnabled := none }

def c3wmap : DeviceMap := (part000RegisterStep [] c3wmsg ⟨6, true⟩ "ip" "uw3" 0).1

def c3wdev : Device := part000StoredDevice c3wmsg "d3" ⟨6, true⟩ "ip" 0

/-- Witness for the amended C3 on a registered device. -/
theorem heartbeat_touch_witness :
    jsMapGet (part000Heartbeat c3wmap (some "d3") (some []) 7).1 "d3"
      = some { c3wdev with lastSeen := 7, status := "online" } ∧
    jsMapGet (serverHeartbeat c3wmap (some "d3") 7) "d3"
      = some { c3wdev with lastSeen := 7 } :=
  have t := heartbeat_touch c3wmap 7 (some [])
  ⟨t.2.2.1 "d3" c3wdev (by decide), t.2.2.2.2.2 "d3" c3wdev (by decide)⟩

def c4map0 : SessionMap :=
  (createSession [] [] none [] none none none none "s1" "tok" 0).1

def c4sess : Session :=
  { sessionId := "s1", name := none, nodes := [], sensors := none, keySetId := none
    startTime := 0, duration := none, retentionPolicy := none, status := "active"
    sessionToken := "tok", endTime := none }

def c4map1 : SessionMap :=
  match stopSession c4map0 [] "s1" 1 with
  | Except.ok p => p.1
  | Except.error _ => []

def c4map2 : SessionMap :=
  match stopSession c4map1 [] "s1" 2 with
  | Except.ok p => p.1
  | Except.error _ => []

/-- Counterexample to C4 as stated: stopping the same session at times
1 and then 2 leaves `endTime = 2` after the second call — the second
stop re-stamps `endTime` instead of leaving it unchanged. -/
theorem stop_restamps_endTime_counterexample :
    (jsMapGet c4map1 "s1").map Session.endTime = some (some 1) ∧
    (jsMapGet c4map2 "s1").map Session.endTime = some (some 2) ∧
    (jsMapGet c4map2 "s1").map Session.endTime
      ≠ (jsMapGet c4map1 "s1").map Session.endTime := by
  decide

/-- Claim C4 amended: `stop` fails with the SessionNotFound reply
exactly when the sessionId is absent from the sessions map (entries are
never removed — a stop preserves every stored key — so an absent id
never existed); on an existing session a stop sets `status = 'stopped'`
and stamps `endTime` with the current time, and a second stop keeps
`status = 'stopped'` but re-stamps `endTime` with its own time. -/
theorem stop_session_idempotent_status
    (sessions : SessionMap) (devices devices2 : DeviceMap) (sid : String) (t1 t2 : Nat) :
    (jsMapGet sessions sid = none →
      stopSession sessions devices sid t1 = Except.error "Session not found") ∧
    (∀ s, jsMapGet sessions sid = some s →
      ∃ m1 s1 sends1, stopSession sessions devices sid t1 = Except.ok (m1, s1, sends1) ∧
        s1.status = "stopped" ∧ s1.endTime = some t1 ∧ jsMapGet m1 sid = some s1 ∧
        (∀ k, jsMapHas sessions k = true → jsMapHas m1 k = true) ∧
        ∃ m2 s2 sends2, stopSession m1 devices2 sid t2 = Except.ok (m2, s2, sends2) ∧
          s2.status = "stopped" ∧ s2.endTime = some t2 ∧ jsMapGet m2 sid = some s2) := by
  constructor
  · intro h
    simp [stopSession, h]
  · intro s h
    have e1 : stopSession sessions devices sid t1
        = Except.ok (jsMapSet sessions sid { s with status := "stopped", endTime := some t1 },
            { s with status := "stopped", endTime := some t1 },
            ({ s with status := "stopped", endTime := some t1 }).nodes.filterMap fun n =>
              if isOnline devices n then some (n, OutMsg.sessionStop sid) else none) := by
      simp [stopSession, h]
    have hget1 : jsMapGet (jsMapSet sessions sid { s with status := "stopped", endTime := some t1 }) sid
        = some { s with status := "stopped", endTime := some t1 } := jsMapGet_set_self _ _ _
    have e2 : stopSession (jsMapSet sessions sid { s with status := "stopped", endTime := some t1 })
          devices2 sid t2
        = Except.ok (jsMapSet (jsMapSet sessions sid { s with status := "stopped", endTime := some t1 })
              sid { s with status := "stopped", endTime := some t2 },
            { s with status := "stopped", endTime := some t2 },
            ({ s with status := "stopped", endTime := some t2 }).nodes.filterMap fun n =>
              if isOnline devices2 n then some (n, OutMsg.sessionStop sid) else none) := by
      simp [stopSession, hget1]
    exact ⟨_, _, _, e1, rfl, rfl, hget1,
      fun k hk => jsMapHas_set_preserve _ _ _ _ hk,
      _, _, _, e2, rfl, rfl, jsMapGet_set_self _ _ _⟩

/-- Witness for the amended C4: an existing session stopped twice. -/
theorem stop_session_idempotent_status_witness :
    ∃ m1 s1 sends1, stopSession c4map0 [] "s1" 1 = Except.ok (m1, s1, sends1) ∧
      s1.status = "stopped" ∧ s1.endTime = some 1 ∧ jsMapGet m1 "s1" = some s1 ∧
      (∀ k, jsMapHas c4map0 k = true → jsMapHas m1 k = true) ∧
      ∃ m2 s2 sends2, stopSession m1 [] "s1" 2 = Except.ok (m2, s2, sends2) ∧
        s2.status = "stopped" ∧ s2.endTime = some 2 ∧ jsMapGet m2 "s1" = some s2 :=
  (stop_session_idempotent_status c4map0 [] [] "s1" 1 2).2 c4sess (by decide)

/-- Claim C5: creating a session stores it with status `active` under
the supplied fresh sessionId/sessionToken, sends `session_start`
(carrying the token, sensors and duration) to exactly the listed nodes
that are currently online — silently skipping offline or unknown
nodes — and the session stays retrievable via `get(sessionId)` with
status `active` regardless of how many nodes were reachable. -/
theorem create_session_active
    (sessions : SessionMap) (devices : DeviceMap) (name : Option String)
    (nodes : List String) (sensors : Option (List String)) (keySetId : Option String)
    (duration : Option Nat) (retention : Option String) (sid tok : String) (now : Nat) :
    (createSession sessions devices name nodes sensors keySetId duration retention sid tok now).2.1.status
      = "active" ∧
    (createSession sessions devices name nodes sensors keySetId duration retention sid tok now).2.1.sessionId
      = sid ∧
    (createSession sessions devices name nodes sensors keySetId duration retention sid tok now).2.1.sessionToken
      = tok ∧
    getSession (createSession sessions devices name nodes sensors keySetId duration retention sid tok now).1 sid
      = Except.ok (createSession sessions devices name nodes sensors keySetId duration retention sid tok now).2.1 ∧
    (createSession sessions devices name nodes sensors keySetId duration retention sid tok now).2.2
      = (nodes.filter fun n => isOnline devices n).map
          (fun n => (n, OutMsg.sessionStart sid tok sensors duration)) := by
  refine ⟨rfl, rfl, rfl, ?_, ?_⟩
  · simp [createSession, getSession]
  · exact filterMap_ifOnline devices _ nodes

/-- Claim C6: the actuator-command gateway answers 404 DeviceNotFound
exactly when the nodeId is absent, 503 DeviceOffline exactly when the
node is known but its handle is not an open socket, and otherwise
forwards a structured `actuator_command` and answers `sent` with the
generated commandId; in both failure cases nothing is sent. -/
theorem actuator_command_gateway
    (m : DeviceMap) (nodeId actuatorId : String) (value nonce : Nat) (cmdId : String) :
    ((sendActuatorCommand m nodeId actuatorId value nonce cmdId).1 = CmdOutcome.notFound
      ↔ jsMapGet m nodeId = none) ∧
    ((sendActuatorCommand m nodeId actuatorId value nonce cmdId).1 = CmdOutcome.offline
      ↔ ∃ dev, jsMapGet m nodeId = some dev ∧ handleOpen dev.ws = false) ∧
    (∀ dev, jsMapGet m nodeId = some dev → handleOpen dev.ws = true →
      sendActuatorCommand m nodeId actuatorId value nonce cmdId
        = (CmdOutcome.sent cmdId,
           [(nodeId, OutMsg.actuatorCommand cmdId actuatorId value nonce)])) ∧
    ((sendActuatorCommand m nodeId actuatorId value nonce cmdId).1 = CmdOutcome.notFound ∨
      (sendActuatorCommand m nodeId actuatorId value nonce cmdId).1 = CmdOutcome.offline →
      (sendActuatorCommand m nodeId actuatorId value nonce cmdId).2 = []) := by
  cases hg : jsMapGet m nodeId with
  | none =>
      refine ⟨by simp [sendActuatorCommand, hg], by simp [sendActuatorCommand, hg], ?_, ?_⟩
      · intro dev h
        simp at h
      · intro hcase
        simp [sendActuatorCommand, hg]
  | some dev =>
      by_cases ho : handleOpen dev.ws = true
      · refine ⟨by simp [sendActuatorCommand, hg, ho], ?_, ?_, ?_⟩
        · simp [sendActuatorCommand, hg, ho]
        · intro dev' h' _
          cases h'
          simp [sendActuatorCommand, hg, ho]
        · intro hcase
          simp [sendActuatorCommand, hg, ho] at hcase
      · have hof : handleOpen dev.ws = false := by
          cases hb : handleOpen dev.ws
          · rfl
          · exact absurd hb ho
        refine ⟨by simp [sendActuatorCommand, hg, hof], ?_, ?_, ?_⟩
        · simp [sendActuatorCommand, hg, hof]
        · intro dev' h' ho'
          cases h'
          rw [ho'] at hof
          cases hof
        · intro hcase
          simp [sendActuatorCommand, hg, hof]

def c6msg : RegisterMsg :=
  { deviceId := some "d6", name := none, firmwareVersion := none, capabilities := none
    samplingRate := none, cameraResolution := none, compressionEnabled := none
    otaEnabled := none }

def c6map : DeviceMap := (serverRegisterStep [] c6msg ⟨8, true⟩ "ip" "u6" 0).1

def c6dev : Device := serverStoredDevice c6msg "d6" ⟨8, true⟩ "ip" 0

/-- Witness for C6: a command to a registered online device is sent;
a command to an unknown id answers DeviceNotFound. -/
theorem actuator_command_gateway_witness :
    sendActuatorCommand c6map "d6" "a1" 5 99 "cmd1"
      = (CmdOutcome.sent "cmd1", [("d6", OutMsg.actuatorCommand "cmd1" "a1" 5 99)]) ∧
    (sendActuatorCommand c6map "nope" "a1" 5 99 "cmd2").1 = CmdOutcome.notFound :=
  have t := actuator_command_gateway c6map "d6" "a1" 5 99 "cmd1"
  have t2 := actuator_command_gateway c6map "nope" "a1" 5 99 "cmd2"
  ⟨t.2.2.1 c6dev (by decide) (by decide), t2.1.mpr (by decide)⟩

def c7msg : RegisterMsg :=
  { deviceId := some "d7", name := some "Cam", firmwareVersion := none, capabilities := none
    samplingRate := none, cameraResolution := some "640x480", compressionEnabled := some true
    otaEnabled := some true }

def c7map : DeviceMap := (serverRegisterStep [] c7msg ⟨9, true⟩ "ip" "u7" 0).1

def c7cfgEmpty : ServerConfig :=
  { deviceName := none, samplingRate := none, capabilities := none
    cameraResolution := none, compressionEnabled := none, otaEnabled := none }

def c7map2 : DeviceMap :=
  match serverConfigure c7map "d7" c7cfgEmpty with
  | Except.ok p => p.1
  | Except.error _ => []

/-- Counterexample to C7 as stated: in src/server.js a configure
request that omits `cameraResolution` overwrites the stored value with
the absent value instead of keeping the prior one. -/
theorem configure_partial_update_counterexample :
    (jsMapGet c7map "d7").map Device.cameraResolution = some (some "640x480") ∧
    (jsMapGet c7map2 "d7").map Device.cameraResolution = some none ∧
    (jsMapGet c7map2 "d7").map Device.cameraResolution
      ≠ (jsMapGet c7map "d7").map Device.cameraResolution := by
  decide

/-- Claim C7 amended: configure answers DeviceNotFound exactly when the
id is absent; for an existing device the update is stored even when the
device is offline and `config_update` is pushed only when the handle is
open.  In part_000 the update is a genuine partial update (unsupplied
fields keep their prior values, `ws` and `status` untouched); in
server.js only `name`, `samplingRate` and `capabilities` are preserved
when unsupplied, while `cameraResolution`, `compressionEnabled` and
`otaEnabled` are overwritten with the request values (absent included). -/
theorem configure_update (m m' : DeviceMap) (did did' : String) (cfgS : ServerConfig)
    (cfgP : Part000Config) (dev : Device) (h : jsMapGet m did = some dev)
    (h' : jsMapGet m' did' = none) :
    serverConfigure m' did' cfgS = Except.error "Device not found" ∧
    part000Configure m' did' cfgP = Except.error "Device not found" ∧
    part000Configure m did cfgP
      = Except.ok (jsMapSet m did (part000AssignConfig dev cfgP),
          if handleOpen dev.ws then [(did, OutMsg.configUpdatePart000 cfgP)] else []) ∧
    serverConfigure m did cfgS
      = Except.ok (jsMapSet m did (serverConfiguredDevice dev cfgS),
          if handleOpen dev.ws then
            [(did, OutMsg.configUpdateServer (serverConfiguredDevice dev cfgS).name
                (serverConfiguredDevice dev cfgS).samplingRate
                (serverConfiguredDevice dev cfgS).capabilities
                (serverConfiguredDevice dev cfgS).cameraResolution
                (serverConfiguredDevice dev cfgS).compressionEnabled
                (serverConfiguredDevice dev cfgS).otaEnabled)]
          else []) ∧
    jsMapGet (jsMapSet m did (part000AssignConfig dev cfgP)) did
      = some (part000AssignConfig dev cfgP) ∧
    jsMapGet (jsMapSet m did (serverConfiguredDevice dev cfgS)) did
      = some (serverConfiguredDevice dev cfgS) ∧
    (cfgP.name = none → (part000AssignConfig dev cfgP).name = dev.name) ∧
    (cfgP.samplingRate = none →
      (part000AssignConfig dev cfgP).samplingRate = dev.samplingRate) ∧
    (cfgP.capabilities = none →
      (part000AssignConfig dev cfgP).capabilities = dev.capabilities) ∧
    (cfgP.cameraResolution = none →
      (part000AssignConfig dev cfgP).cameraResolution = dev.cameraResolution) ∧
    (cfgP.compressionEnabled = none →
      (part000AssignConfig dev cfgP).compressionEnabled = dev.compressionEnabled) ∧
    (cfgP.otaEnabled = none → (part000AssignConfig dev cfgP).otaEnabled = dev.otaEnabled) ∧
    (part000AssignConfig dev cfgP).ws = dev.ws ∧
    (part000AssignConfig dev cfgP).status = dev.status ∧
    (cfgS.deviceName = none → (serverConfiguredDevice dev cfgS).name = dev.name) ∧
    (cfgS.samplingRate = none →
      (serverConfiguredDevice dev cfgS).samplingRate = dev.samplingRate) ∧
    (cfgS.capabilities = none →
      (serverConfiguredDevice dev cfgS).capabilities = dev.capabilities) ∧
    (serverConfiguredDevice dev cfgS).cameraResolution = cfgS.cameraResolution ∧
    (serverConfiguredDevice dev cfgS).compressionEnabled = cfgS.compressionEnabled ∧
    (serverConfiguredDevice dev cfgS).otaEnabled = cfgS.otaEnabled ∧
    (serverConfiguredDevice dev cfgS).ws = dev.ws := by
  refine ⟨by simp [serverConfigure, h'], by simp [part000Configure, h'],
      by simp [part000Configure, h, part000AssignConfig],
      by simp [serverConfigure, h, serverConfiguredDevice],
      jsMapGet_set_self _ _ _, jsMapGet_set_self _ _ _, ?_, ?_, ?_, ?_, ?_, ?_,
      rfl, rfl, ?_, ?_, ?_, rfl, rfl, rfl, rfl⟩
  · intro hc; simp [part000AssignConfig, hc]
  · intro hc; simp [part000AssignConfig, hc]
  · intro hc; simp [part000AssignConfig, hc]
  · intro hc; simp [part000AssignConfig, hc]
  · intro hc; simp [part000AssignConfig, hc]
  · intro hc; simp [part000AssignConfig, hc]
  · intro hc; simp [serverConfiguredDevice, hc]
  · intro hc; simp [serverConfiguredDevice, hc]
  · intro hc; simp [serverConfiguredDevice, hc]

def c7wmsg : RegisterMsg :=
  { deviceId := some "d7", name := some "Cam", firmwareVersion := none, capabilities := none
    samplingRate := none, cameraResolution := some "640x480", compressionEnabled := none
    otaEnabled := none }

def c7wmap : DeviceMap := (part000RegisterStep [] c7wmsg ⟨10, true⟩ "ip" "uw7" 0).1

def c7wdev : Device := part000StoredDevice c7wmsg "d7" ⟨10, true⟩ "ip" 0

def c7wcfgP : Part000Config :=
  { name := some "NewCam", samplingRate := none, capabilities := none
    cameraResolution := none, compressionEnabled := none, otaEnabled := none }

/-- Witness for the amended C7 on a registered part_000 device,
with an unknown id on the empty map for the 404 conjunct. -/
theorem configure_update_witness :
    part000Configure [] "nope" c7wcfgP = Except.error "Device not found" ∧
    part000Configure c7wmap "d7" c7wcfgP
      = Except.ok (jsMapSet c7wmap "d7" (part000AssignConfig c7wdev c7wcfgP),
          if handleOpen c7wdev.ws then [("d7", OutMsg.configUpdatePart000 c7wcfgP)] else []) ∧
    (c7wcfgP.cameraResolution = none →
      (part000AssignConfig c7wdev c7wcfgP).cameraResolution = c7wdev.cameraResolution) :=
  have t := configure_update c7wmap [] "d7" "nope" c7cfgEmpty c7wcfgP c7wdev
    (by decide) (by decide)
  ⟨t.2.1, t.2.2.1, t.2.2.2.2.2.2.2.2.2.1⟩

/-- Claim C8 (the dashboard message router is modelled from the spec,
not present under src/): `binary_cmd` zero-pads odd-length hex — "0A1"
decodes exactly like "0A10", to bytes [10, 16] — and forwards the raw
bytes when the target is online, else replies with reason
"device not connected". -/
theorem binary_cmd_hex (devices : DeviceMap) (t p : String) :
    decodeHex "0A1" = decodeHex "0A10" ∧
    decodeHex "0A1" = [10, 16] ∧
    (isOnline devices t = true →
      binaryCmd devices t p = DashReply.forwarded t (decodeHex p)) ∧
    (isOnline devices t = false →
      binaryCmd devices t p = DashReply.errorReply "device not connected") := by
  refine ⟨by decide, by decide, ?_, ?_⟩
  · intro h; simp [binaryCmd, h]
  · intro h; simp [binaryCmd, h]

def c8msg : RegisterMsg :=
  { deviceId := some "d8", name := none, firmwareVersion := none, capabilities := none
    samplingRate := none, cameraResolution := none, compressionEnabled := none
    otaEnabled := none }

def c8map : DeviceMap := (part000RegisterStep [] c8msg ⟨11, true⟩ "ip" "u8" 0).1

/-- Witness for C8: forwarding to an online device and the error reply
for an unknown target. -/
theorem binary_cmd_hex_witness :
    binaryCmd c8map "d8" "0A1" = DashReply.forwarded "d8" (decodeHex "0A1") ∧
    binaryCmd c8map "nope" "0A1" = DashReply.errorReply "device not connected" :=
  have t1 := binary_cmd_hex c8map "d8" "0A1"
  have t2 := binary_cmd_hex c8map "nope" "0A1"
  ⟨t1.2.2.1 (by decide), t2.2.2.2 (by decide)⟩

def c10entry : LogEntry := { message := "boot", time := 0 }

/-- Witness for C10 at the empty buffer. -/
theorem logs_bounded_witness :
    (logStep [] c10entry).length ≤ 500 ∧
    (500 < (([] : List LogEntry) ++ [c10entry]).length →
      logStep [] c10entry = (([] : List LogEntry) ++ [c10entry]).tail) ∧
    ((([] : List LogEntry) ++ [c10entry]).length ≤ 500 →
      logStep [] c10entry = ([] : List LogEntry) ++ [c10entry]) ∧
    (∀ es : List LogEntry, (getLogs (es.foldl logStep [])).length ≤ 500) :=
  logs_bounded [] c10entry (by simp)

end PRBackend
